import Mathlib

/-!
Shallow embedding of the glyph-rendering cache and the window controller of
the Gskartwii/wezterm GPU front end, translated from
`src/frontend/gui/glyphcache.rs` and `src/guicommon/window.rs`, together with
theorems settling the specification's claims about them.

Pixel lengths (`PixelLength`, an `f64` wrapper in the source) are modelled as
exact rationals; machine integers are modelled as `Nat`/`Int` with explicit
wrap-around (`% 2^64` for usize/isize casts, `% 2^16` for u16 casts) at the
places where the source performs an `as` cast.
-/

namespace Wezterm

/-- Text style descriptor. In the source this is `config::TextStyle`, an owned
configuration value compared by value; the embedding keeps a list of attribute
strings, which has exactly the value equality the cache relies on. -/
structure TextStyle where
  attrs : List String
deriving DecidableEq

/-- Owned glyph cache key (`GlyphKey` in glyphcache.rs). -/
structure GlyphKey where
  font_idx : Nat
  glyph_pos : Nat
  style : TextStyle
deriving DecidableEq

/-- Borrowed view of a glyph key (`BorrowedGlyphKey` in glyphcache.rs):
same fields, but the style is referenced rather than owned.  Borrowing has no
run-time content in the embedding, so the field is carried by value; what the
claims are about is the comparison/hash projection shared with `GlyphKey`. -/
structure BorrowedGlyphKey where
  font_idx : Nat
  glyph_pos : Nat
  style : TextStyle
deriving DecidableEq

/-- `BorrowedGlyphKey::to_owned`: clones the style into an owned key. -/
def BorrowedGlyphKey.to_owned (b : BorrowedGlyphKey) : GlyphKey :=
  { font_idx := b.font_idx, glyph_pos := b.glyph_pos, style := b.style }

/-- `GlyphKeyTrait::key` for the owned representation. -/
def GlyphKey.key (k : GlyphKey) : BorrowedGlyphKey :=
  { font_idx := k.font_idx, glyph_pos := k.glyph_pos, style := k.style }

/-- `GlyphKeyTrait::key` for the borrowed representation (identity). -/
def BorrowedGlyphKey.key (b : BorrowedGlyphKey) : BorrowedGlyphKey := b

/-- A `&dyn GlyphKeyTrait` value: either an owned key (as the map stores) or a
borrowed ad-hoc lookup key. -/
inductive GlyphKeyRef where
  | owned (k : GlyphKey)
  | borrowed (b : BorrowedGlyphKey)

/-- The `key()` projection through the trait object. -/
def GlyphKeyRef.key : GlyphKeyRef → BorrowedGlyphKey
  | .owned k => k.key
  | .borrowed b => b.key

/-- `PartialEq for dyn GlyphKeyTrait`: compares the `key()` projections. -/
def GlyphKeyRef.eqv (a b : GlyphKeyRef) : Bool := decide (a.key = b.key)

/-- Model of one step of a `derive(Hash)` byte stream: fold the next field
hash into the accumulated state. -/
def hashMix (h x : Nat) : Nat := (h * 31 + x) % 2 ^ 64

/-- Hash of a string field, folding its characters in order. -/
def hashString (s : String) : Nat := s.data.foldl (fun h c => hashMix h c.toNat) 7

/-- `derive(Hash)` for `TextStyle`: hashes the attribute values in order;
`Hash for &TextStyle` feeds the identical stream, so a borrowed style hashes
like the owned one. -/
def TextStyle.hashVal (st : TextStyle) : Nat :=
  st.attrs.foldl (fun h a => hashMix h (hashString a)) 11

/-- `derive(Hash)` for `BorrowedGlyphKey`: fields in declaration order. -/
def BorrowedGlyphKey.hashVal (b : BorrowedGlyphKey) : Nat :=
  hashMix (hashMix (hashMix 5 b.font_idx) b.glyph_pos) b.style.hashVal

/-- `derive(Hash)` for `GlyphKey`: fields in declaration order. -/
def GlyphKey.hashVal (k : GlyphKey) : Nat :=
  hashMix (hashMix (hashMix 5 k.font_idx) k.glyph_pos) k.style.hashVal

/-- `Hash for dyn GlyphKeyTrait`: hashes the `key()` projection. -/
def GlyphKeyRef.hashVal (r : GlyphKeyRef) : Nat := r.key.hashVal

/-- Handle to a region inside one atlas instance. -/
structure Sprite where
  sprite_id : Nat
deriving DecidableEq

/-- A rendered glyph record (`CachedGlyph` in glyphcache.rs).  The image data
may be `none` for whitespace glyphs. -/
structure CachedGlyph where
  has_color : Bool
  x_offset : ℚ
  y_offset : ℚ
  bearing_x : ℚ
  bearing_y : ℚ
  texture : Option Sprite
  scale : ℚ
deriving DecidableEq

/-- A bitmap handed to the atlas; only its pixel dimensions matter to the
claims (pixel contents are out of the spec's scope). -/
structure Bitmap where
  width : Nat
  height : Nat
deriving DecidableEq

/-- Modelled from the spec: `Image::scale_by` of the window::bitmaps
collaborator (absent from src/) resamples the raw bitmap to the scaled pixel
dimensions. -/
def scale_by (bm : Bitmap) (s : ℚ) : Bitmap :=
  { width := (⌊(bm.width : ℚ) * s⌋).toNat, height := (⌊(bm.height : ℚ) * s⌋).toNat }

/-- Errors produced while resolving a glyph or image. -/
inductive GlyphCacheError where
  | fontResolution
  | rasterization
  | decode
  | outOfTextureSpace (size : Nat)
deriving DecidableEq

/-- Atlas state: side length of the square texture, allocated area, a fresh
sprite counter and the log of bitmaps allocated so far. -/
structure AtlasState where
  side : Nat
  used : Nat
  next_sprite : Nat
  allocs : List Bitmap
deriving DecidableEq

/-- Modelled from the spec: `atlas.allocate(bitmap) -> sprite` of the
textureatlas collaborator (absent from src/), which fails with
`AtlasOutOfSpace{required_size}` when the allocation cannot fit and otherwise
keeps total allocated area within capacity. -/
def AtlasState.allocate (a : AtlasState) (bm : Bitmap) :
    Except GlyphCacheError (Sprite × AtlasState) :=
  if a.used + bm.width * bm.height ≤ a.side * a.side then
    .ok ({ sprite_id := a.next_sprite },
      { side := a.side, used := a.used + bm.width * bm.height,
        next_sprite := a.next_sprite + 1, allocs := a.allocs ++ [bm] })
  else
    .error (.outOfTextureSpace (a.side * 2))

/-- Font metrics returned by the font collaborator. -/
structure FontMetrics where
  cell_width : ℚ
  cell_height : ℚ
deriving DecidableEq

/-- A rasterized glyph bitmap returned by `font.rasterize_glyph`. -/
structure RasterizedGlyph where
  width : Nat
  height : Nat
  bearing_x : ℚ
  bearing_y : ℚ
  has_color : Bool
deriving DecidableEq

/-- Shaped-glyph info handed to the cache (`GlyphInfo` fields used here). -/
structure GlyphInfo where
  font_idx : Nat
  glyph_pos : Nat
  x_offset : ℚ
  y_offset : ℚ
deriving DecidableEq

/-- The font collaborator's responses for one `load_glyph` invocation:
what `resolve_font(style)` (with its metrics) and
`rasterize_glyph(glyph_pos, font_idx)` return. -/
structure FontCollab where
  resolve_font : Except GlyphCacheError FontMetrics
  rasterize_glyph : Except GlyphCacheError RasterizedGlyph

/-- An `Rc<CachedGlyph>`: an instance identity paired with the value, so that
shared-instance claims are expressible. -/
abbrev RcCachedGlyph := Nat × CachedGlyph

/-- State of `GlyphCache`: glyph map, atlas, image map and a fresh counter for
`Rc` identities. -/
structure GlyphCacheState where
  glyph_cache : List (GlyphKey × RcCachedGlyph)
  atlas : AtlasState
  image_cache : List (Nat × Sprite)
  next_rc : Nat
deriving DecidableEq

/-- Map lookup as the glyph cache performs it: stored owned keys are compared
against the query through the `dyn GlyphKeyTrait` equality. -/
def glyph_lookup (cache : List (GlyphKey × RcCachedGlyph)) (q : GlyphKeyRef) :
    Option RcCachedGlyph :=
  (cache.find? (fun kv => GlyphKeyRef.eqv (.owned kv.1) q)).map (·.2)

/-- The `scale` computed at the top of `load_glyph`: oversize-glyph heuristic
comparing the rasterized height against 1.5 times the cell height. -/
def glyph_scale (metrics : FontMetrics) (glyph : RasterizedGlyph) : ℚ :=
  if (glyph.height : ℚ) > metrics.cell_height * (3 / 2) then
    metrics.cell_height / (glyph.height : ℚ)
  else 1

/-- The bitmap `load_glyph` hands to the atlas for a non-whitespace glyph:
resampled when `scale` is not 1, the raw bitmap otherwise. -/
def glyph_bitmap (metrics : FontMetrics) (glyph : RasterizedGlyph) : Bitmap :=
  let raw : Bitmap := { width := glyph.width, height := glyph.height }
  if glyph_scale metrics glyph ≠ 1 then scale_by raw (glyph_scale metrics glyph) else raw

/-- `GlyphCache::load_glyph`: resolve the font, rasterize, compute the scale,
then either build a texture-less whitespace glyph or allocate the (possibly
resampled) bitmap into the atlas. -/
def load_glyph (c : GlyphCacheState) (info : GlyphInfo) (_style : TextStyle)
    (collab : FontCollab) : Except GlyphCacheError RcCachedGlyph × GlyphCacheState :=
  match collab.resolve_font with
  | .error e => (.error e, c)
  | .ok metrics =>
    match collab.rasterize_glyph with
    | .error e => (.error e, c)
    | .ok glyph =>
      let scale := glyph_scale metrics glyph
      if glyph.width = 0 ∨ glyph.height = 0 then
        (.ok (c.next_rc,
          { has_color := glyph.has_color
            x_offset := info.x_offset * scale
            y_offset := info.y_offset * scale
            bearing_x := 0
            bearing_y := 0
            texture := none
            scale := scale }),
         { c with next_rc := c.next_rc + 1 })
      else
        let bearing_x := glyph.bearing_x * scale
        let bearing_y := glyph.bearing_y * scale
        let x_offset := info.x_offset * scale
        let y_offset := info.y_offset * scale
        let stored_scale : ℚ := if scale ≠ 1 then 1 else scale
        match c.atlas.allocate (glyph_bitmap metrics glyph) with
        | .error e => (.error e, c)
        | .ok (tex, atlas') =>
          (.ok (c.next_rc,
            { has_color := glyph.has_color
              x_offset := x_offset
              y_offset := y_offset
              bearing_x := bearing_x
              bearing_y := bearing_y
              texture := some tex
              scale := stored_scale }),
           { c with atlas := atlas', next_rc := c.next_rc + 1 })

/-- `GlyphCache::cached_glyph`: borrowed-key lookup; on hit return the shared
entry, on miss render via `load_glyph` and insert under the owned key. -/
def cached_glyph (c : GlyphCacheState) (info : GlyphInfo) (style : TextStyle)
    (collab : FontCollab) : Except GlyphCacheError RcCachedGlyph × GlyphCacheState :=
  let key : BorrowedGlyphKey :=
    { font_idx := info.font_idx, glyph_pos := info.glyph_pos, style := style }
  match glyph_lookup c.glyph_cache (.borrowed key) with
  | some entry => (.ok entry, c)
  | none =>
    match load_glyph c info style collab with
    | (.error e, c') => (.error e, c')
    | (.ok glyph, c') =>
      (.ok glyph, { c' with glyph_cache := (key.to_owned, glyph) :: c'.glyph_cache })

/-- An inline image asset: stable content identifier plus raw bytes. -/
structure ImageData where
  id : Nat
  data : List Nat
deriving DecidableEq

/-- The image decoder collaborator's response for one asset's bytes. -/
structure ImageCollab where
  decoded : Except GlyphCacheError Bitmap

/-- `GlyphCache::cached_image`: lookup by content id; on miss decode, allocate
into the atlas and cache the sprite. -/
def cached_image (c : GlyphCacheState) (image_data : ImageData)
    (collab : ImageCollab) : Except GlyphCacheError Sprite × GlyphCacheState :=
  match (c.image_cache.find? (fun kv => kv.1 == image_data.id)).map (·.2) with
  | some sprite => (.ok sprite, c)
  | none =>
    match collab.decoded with
    | .error e => (.error e, c)
    | .ok image =>
      match c.atlas.allocate image with
      | .error e => (.error e, c)
      | .ok (sprite, atlas') =>
        (.ok sprite,
         { c with atlas := atlas', image_cache := (image_data.id, sprite) :: c.image_cache })

/-! ### Window controller (src/guicommon/window.rs) -/

/-- Terminal emulation state, at the granularity of the §6 collaborator
contract: title, size, and the set of dirty line indices. -/
structure Terminal where
  title : String
  rows : Nat
  cols : Nat
  dirty : List Nat
deriving DecidableEq

/-- `terminal.make_all_lines_dirty`: every line index becomes dirty. -/
def Terminal.make_all_lines_dirty (t : Terminal) : Terminal :=
  { t with dirty := List.range t.rows }

/-- `terminal.has_dirty_lines`. -/
def Terminal.has_dirty_lines (t : Terminal) : Bool := !t.dirty.isEmpty

/-- `terminal.resize(rows, cols)`. -/
def Terminal.resize (t : Terminal) (rows cols : Nat) : Terminal :=
  { t with rows := rows, cols := cols }

/-- `terminal.get_title`. -/
def Terminal.get_title (t : Terminal) : String := t.title

/-- Pseudo-terminal handle; `resize_ok` encodes whether the next
`pty.resize` call of this collaborator succeeds. -/
structure Pty where
  rows : Nat
  cols : Nat
  width : Nat
  height : Nat
  resize_ok : Bool
deriving DecidableEq

/-- Errors surfacing from the controller's collaborators. -/
inductive WindowError where
  | pty
deriving DecidableEq

/-- Modelled from the spec: the pty collaborator's `resize` (§6), which
records the new geometry and may fail with a pty error. -/
def Pty.resize (p : Pty) (rows cols width height : Nat) : Except WindowError Pty :=
  if p.resize_ok then
    .ok { p with rows := rows, cols := cols, width := width, height := height }
  else .error .pty

/-- Child process handle; `try_wait` polls it (spec §6: running or exited). -/
structure ChildProcess where
  exited : Bool
deriving DecidableEq

/-- `process.try_wait()`: `some` when the process has exited, `none` while it
is still running (the `Ok(None)` arm in the source). -/
def ChildProcess.try_wait (p : ChildProcess) : Option Unit :=
  if p.exited then some () else none

/-- One tab: terminal state, child process and pty, plus its stable id. -/
structure Tab where
  tab_id : Nat
  terminal : Terminal
  process : ChildProcess
  pty : Pty
deriving DecidableEq

/-- Modelled from the spec: the `Tabs` collection (guicommon/tabs.rs is absent
from src/) is an ordered sequence of tabs plus an active index with invariant
`0 ≤ active < length` whenever non-empty. -/
structure Tabs where
  items : List Tab
  active : Nat
deriving DecidableEq

def Tabs.len (ts : Tabs) : Nat := ts.items.length

def Tabs.is_empty (ts : Tabs) : Bool := ts.items.isEmpty

def Tabs.get_active_idx (ts : Tabs) : Nat := ts.active

def Tabs.set_active (ts : Tabs) (n : Nat) : Tabs := { ts with active := n }

def Tabs.get_active (ts : Tabs) : Option Tab := ts.items.get? ts.active

/-- Modelled from the spec: `Tabs::remove_by_id` removes the tab carrying the
given stable identifier; the active index is clamped so the non-empty
invariant is preserved. -/
def Tabs.remove_by_id (ts : Tabs) (tab_id : Nat) : Tabs :=
  let items := ts.items.filter (fun t => t.tab_id ≠ tab_id)
  { items := items, active := min ts.active (items.length - 1) }

/-- Description of the controller's texture atlas: requested size and a
generation counter bumped on every rebuild. -/
structure AtlasDesc where
  size : Nat
  gen : Nat
deriving DecidableEq

/-- Controller state behind the `TerminalWindow` trait: tabs, pixel and cell
dimensions (`Dimensions`), the atlas, the window title, and the log of host
`deregister_tab` notifications. -/
structure WindowState where
  tabs : Tabs
  width : Nat
  height : Nat
  cell_width : Nat
  cell_height : Nat
  atlas : AtlasDesc
  window_title : String
  deregistered : List Nat
deriving DecidableEq

/-- Modelled from the spec: `recreate_texture_atlas(size)` (implemented by the
concrete windows, absent from src/) rebuilds the atlas at the requested size,
discarding the old atlas generation and every cache entry referencing it. -/
def recreate_texture_atlas (s : WindowState) (size : Nat) : WindowState :=
  { s with atlas := { size := size, gen := s.atlas.gen + 1 } }

/-- Replace the active tab's terminal in place (the `RefCell` mutation the
source performs through `tab.terminal()`). -/
def WindowState.modify_active_terminal (s : WindowState) (f : Terminal → Terminal) :
    WindowState :=
  match s.tabs.get_active with
  | none => s
  | some tab =>
    { s with tabs :=
        { s.tabs with items :=
            s.tabs.items.set s.tabs.active { tab with terminal := f tab.terminal } } }

/-- `TerminalWindow::update_title`. -/
def update_title (s : WindowState) : WindowState :=
  let num_tabs := s.tabs.len
  if num_tabs = 0 then s
  else
    match s.tabs.get_active with
    | none => s
    | some tab =>
      let title := tab.terminal.get_title
      if num_tabs = 1 then { s with window_title := title }
      else
        { s with window_title :=
            "[" ++ Nat.repr (s.tabs.get_active_idx + 1) ++ "/" ++ Nat.repr num_tabs
              ++ "] " ++ title }

/-- `TerminalWindow::activate_tab`: no-op when the index is out of range. -/
def activate_tab (s : WindowState) (tab_idx : Nat) : WindowState :=
  let max := s.tabs.len
  if tab_idx < max then update_title { s with tabs := s.tabs.set_active tab_idx }
  else s

/-- Wrap-around of a mathematical integer into the isize range, as Rust `as`
casts and release-mode arithmetic do. -/
def wrap_isize (t : Int) : Int := (t + 2 ^ 63) % 2 ^ 64 - 2 ^ 63

/-- Rust `isize as usize`: reinterpret the two's complement bits. -/
def cast_isize_to_usize (t : Int) : Nat := (t % (2 ^ 64 : Int)).toNat

/-- The index computed inside `activate_tab_relative`: `active + delta`,
adding `max` when negative, cast to usize and reduced `% max`. -/
def relative_tab_index (len active : Nat) (delta : Int) : Nat :=
  let active' := wrap_isize (active : Int)
  let tab := wrap_isize (active' + delta)
  let tab := if tab < 0 then wrap_isize (wrap_isize (len : Int) + tab) else tab
  cast_isize_to_usize tab % len

/-- `TerminalWindow::activate_tab_relative`.  With zero tabs the source's
`tab as usize % max` is a division by zero and panics; that branch is modelled
as `none`. -/
def activate_tab_relative (s : WindowState) (delta : Int) : Option WindowState :=
  if s.tabs.len = 0 then none
  else some (activate_tab s (relative_tab_index s.tabs.len s.tabs.get_active_idx delta))

/-- Result of one `renderer.paint` call inside `paint()`. -/
inductive RenderError where
  | outOfTextureSpace (size : Nat)
  | other (code : Nat)
deriving DecidableEq

abbrev RenderResult := Except RenderError Unit

/-- `TerminalWindow::paint`: render the active terminal, and on an
`OutOfTextureSpace{size}` failure rebuild the atlas at that size, mark every
line of the active terminal dirty and recursively retry; any other error is
returned unchanged.  Each (re)entry consumes the next scripted render result;
an exhausted script (the recursion outrunning the model) is `none`, as is the
`unwrap` of a missing active tab. -/
def paint : WindowState → List RenderResult → Option (Except RenderError Unit × WindowState)
  | _, [] => none
  | s, res :: rest =>
    match res with
    | .ok _ => some (.ok (), s)
    | .error (.other code) => some (.error (.other code), s)
    | .error (.outOfTextureSpace size) =>
      match (recreate_texture_atlas s size).tabs.get_active with
      | none => none
      | some _ =>
        paint ((recreate_texture_atlas s size).modify_active_terminal
          Terminal.make_all_lines_dirty) rest

/-- The resize loop of `resize_surfaces`: resize each tab's pty and terminal
in order; a failing pty aborts the loop, leaving that tab and its successors
untouched (`Bool` is true when every tab was resized). -/
def resize_tabs (rows cols width height : Nat) : List Tab → List Tab × Bool
  | [] => ([], true)
  | t :: ts =>
    match t.pty.resize rows cols width height with
    | .error _ => (t :: ts, false)
    | .ok pty' =>
      let t' := { t with pty := pty', terminal := t.terminal.resize rows cols }
      let rec_result := resize_tabs rows cols width height ts
      (t' :: rec_result.1, rec_result.2)

/-- `TerminalWindow::resize_surfaces`: no-op reporting `false` when the
requested dimensions equal the current ones; otherwise recompute rows/columns
with the `+1` fudge (truncated to u16 as the source's `as u16` casts do) and
propagate them to every tab.  `advise_renderer_of_resize` is modelled as
recording the new window dimensions. -/
def resize_surfaces (s : WindowState) (width height : Nat) :
    Except WindowError Bool × WindowState :=
  if width ≠ s.width ∨ height ≠ s.height then
    let s1 := { s with width := width, height := height }
    let rows := ((height + 1) / s.cell_height) % 2 ^ 16
    let cols := ((width + 1) / s.cell_width) % 2 ^ 16
    match resize_tabs rows cols width height s1.tabs.items with
    | (items', true) => (.ok true, { s1 with tabs := { s1.tabs with items := items' } })
    | (items', false) => (.error .pty, { s1 with tabs := { s1.tabs with items := items' } })
  else (.ok false, s)

/-- `TerminalWindow::tab_did_terminate`: remove the tab by id; if a tab
remains active, mark its terminal fully dirty and refresh the title; then
notify the host (best effort). -/
def tab_did_terminate (s : WindowState) (tab_id : Nat) : WindowState :=
  let s1 := { s with tabs := s.tabs.remove_by_id tab_id }
  let s2 :=
    match s1.tabs.get_active with
    | some _ => update_title (s1.modify_active_terminal Terminal.make_all_lines_dirty)
    | none => s1
  { s2 with deregistered := s2.deregistered ++ [tab_id] }

/-- `TerminalWindow::test_for_child_exit`: collect the ids of tabs whose
process polls as exited, terminate each via `tab_did_terminate`, and report
whether the collection is now empty. -/
def test_for_child_exit (s : WindowState) : Bool × WindowState :=
  let dead_tabs := s.tabs.items.filterMap (fun t =>
    match t.process.try_wait with
    | none => none
    | some _ => some t.tab_id)
  let s' := dead_tabs.foldl tab_did_terminate s
  (s'.tabs.is_empty, s')

/-! ### Helper lemmas -/

def exceptBeq {ε α : Type} [DecidableEq ε] [DecidableEq α] : Except ε α → Except ε α → Bool
  | .error x, .error y => decide (x = y)
  | .ok x, .ok y => decide (x = y)
  | _, _ => false

instance {ε α : Type} [DecidableEq ε] [DecidableEq α] : DecidableEq (Except ε α) :=
  fun a b =>
    decidable_of_iff (exceptBeq a b = true) (by cases a <;> cases b <;> simp [exceptBeq])

theorem to_owned_key (b : BorrowedGlyphKey) : b.to_owned.key = b := rfl

theorem key_owned (k : GlyphKey) : (GlyphKeyRef.owned k).key = k.key := rfl

theorem key_borrowed (b : BorrowedGlyphKey) : (GlyphKeyRef.borrowed b).key = b := rfl

theorem glyph_lookup_cons (k : GlyphKey) (v : RcCachedGlyph)
    (rest : List (GlyphKey × RcCachedGlyph)) (q : GlyphKeyRef) :
    glyph_lookup ((k, v) :: rest) q
      = if k.key = q.key then some v else glyph_lookup rest q := by
  by_cases h : k.key = q.key
  · rw [glyph_lookup, List.find?_cons_of_pos]
    · simp [h]
    · simp [GlyphKeyRef.eqv, key_owned, h]
  · rw [glyph_lookup, List.find?_cons_of_neg]
    · simp [h, glyph_lookup]
    · simp [GlyphKeyRef.eqv, key_owned, h]

/-- On success, `load_glyph` hands out the fresh `Rc` identity and bumps the
counter, leaving both maps untouched. -/
theorem load_glyph_ok (c : GlyphCacheState) (info : GlyphInfo) (style : TextStyle)
    (collab : FontCollab) (g : RcCachedGlyph) (c' : GlyphCacheState)
    (h : load_glyph c info style collab = (.ok g, c')) :
    g.1 = c.next_rc ∧ c'.next_rc = c.next_rc + 1 ∧
    c'.glyph_cache = c.glyph_cache ∧ c'.image_cache = c.image_cache := by
  unfold load_glyph at h
  repeat' split at h
  all_goals simp_all
  all_goals (obtain ⟨h1, h2⟩ := h; subst h1; subst h2; simp)

/-- On failure, `load_glyph` returns the state unchanged. -/
theorem load_glyph_error (c : GlyphCacheState) (info : GlyphInfo) (style : TextStyle)
    (collab : FontCollab) (e : GlyphCacheError) (c' : GlyphCacheState)
    (h : load_glyph c info style collab = (.error e, c')) : c' = c := by
  unfold load_glyph at h
  repeat' split at h
  all_goals simp_all

theorem allocate_ok (a : AtlasState) (bm : Bitmap) (sp : Sprite) (a' : AtlasState)
    (h : a.allocate bm = .ok (sp, a')) :
    sp = { sprite_id := a.next_sprite } ∧ a'.allocs = a.allocs ++ [bm] ∧ a'.side = a.side := by
  unfold AtlasState.allocate at h
  split at h
  · simp only [Except.ok.injEq, Prod.mk.injEq] at h
    obtain ⟨h1, h2⟩ := h
    subst h1
    subst h2
    exact ⟨rfl, rfl, rfl⟩
  · simp at h

/-- Full case analysis of a successful `load_glyph` call: the whitespace
branch builds a texture-less record and touches nothing but the `Rc` counter;
the other branch allocates the (possibly resampled) bitmap and stores an
effective scale of 1. -/
theorem load_glyph_cases (c : GlyphCacheState) (info : GlyphInfo) (style : TextStyle)
    (collab : FontCollab) (metrics : FontMetrics) (glyph : RasterizedGlyph)
    (g : RcCachedGlyph) (c' : GlyphCacheState)
    (hf : collab.resolve_font = .ok metrics)
    (hr : collab.rasterize_glyph = .ok glyph)
    (hok : load_glyph c info style collab = (.ok g, c')) :
    ((glyph.width = 0 ∨ glyph.height = 0) ∧
      g = (c.next_rc,
        { has_color := glyph.has_color
          x_offset := info.x_offset * glyph_scale metrics glyph
          y_offset := info.y_offset * glyph_scale metrics glyph
          bearing_x := 0
          bearing_y := 0
          texture := none
          scale := glyph_scale metrics glyph }) ∧
      c' = { c with next_rc := c.next_rc + 1 })
    ∨
    (¬(glyph.width = 0 ∨ glyph.height = 0) ∧
      g.2.texture = some { sprite_id := c.atlas.next_sprite } ∧
      g.2.scale = 1 ∧
      g.2.bearing_x = glyph.bearing_x * glyph_scale metrics glyph ∧
      g.2.bearing_y = glyph.bearing_y * glyph_scale metrics glyph ∧
      g.2.x_offset = info.x_offset * glyph_scale metrics glyph ∧
      g.2.y_offset = info.y_offset * glyph_scale metrics glyph ∧
      c'.atlas.allocs = c.atlas.allocs ++ [glyph_bitmap metrics glyph] ∧
      c'.atlas.side = c.atlas.side) := by
  simp only [load_glyph, hf, hr] at hok
  split at hok
  · rename_i hws
    left
    simp only [Prod.mk.injEq, Except.ok.injEq] at hok
    obtain ⟨hg, hc⟩ := hok
    exact ⟨hws, hg.symm, hc.symm⟩
  · rename_i hws
    right
    split at hok
    · simp at hok
    · rename_i tex atlas2 heq
      simp only [Prod.mk.injEq, Except.ok.injEq] at hok
      obtain ⟨hg, hc⟩ := hok
      obtain ⟨hsp, hallocs, hside⟩ := allocate_ok _ _ _ _ heq
      subst hsp
      subst hg
      subst hc
      refine ⟨hws, rfl, ?_, rfl, rfl, rfl, rfl, hallocs, hside⟩
      by_cases hsc : glyph_scale metrics glyph ≠ 1
      · simp [hsc]
      · rw [if_neg hsc]
        exact not_not.mp hsc

/-! ### Concrete fixtures used by witnesses and counterexamples -/

def fixtureStyle : TextStyle := { attrs := ["normal"] }

def fixtureStyleBold : TextStyle := { attrs := ["bold"] }

def fixtureInfo : GlyphInfo := { font_idx := 0, glyph_pos := 65, x_offset := 0, y_offset := 0 }

def fixtureMetrics : FontMetrics := { cell_width := 1, cell_height := 2 }

def fixtureGlyphSmall : RasterizedGlyph :=
  { width := 2, height := 2, bearing_x := 1, bearing_y := 1, has_color := false }

def fixtureGlyphWS : RasterizedGlyph :=
  { width := 0, height := 4, bearing_x := 0, bearing_y := 0, has_color := false }

def fixtureCollabSmall : FontCollab :=
  { resolve_font := .ok fixtureMetrics, rasterize_glyph := .ok fixtureGlyphSmall }

def fixtureCollabWS : FontCollab :=
  { resolve_font := .ok fixtureMetrics, rasterize_glyph := .ok fixtureGlyphWS }

def fixtureCollabFail : FontCollab :=
  { resolve_font := .ok fixtureMetrics, rasterize_glyph := .error .rasterization }

def fixtureCache : GlyphCacheState :=
  { glyph_cache := [], atlas := { side := 64, used := 0, next_sprite := 0, allocs := [] },
    image_cache := [], next_rc := 0 }

def fixtureKey1 : GlyphKey := { font_idx := 0, glyph_pos := 65, style := fixtureStyle }

def fixtureKey2 : GlyphKey := { font_idx := 0, glyph_pos := 65, style := fixtureStyleBold }

def fixtureGlyph1 : RcCachedGlyph :=
  (0, { has_color := false, x_offset := 0, y_offset := 0, bearing_x := 1, bearing_y := 1,
        texture := some { sprite_id := 0 }, scale := 1 })

def fixtureGlyph2 : RcCachedGlyph :=
  (1, { has_color := false, x_offset := 0, y_offset := 0, bearing_x := 1, bearing_y := 1,
        texture := some { sprite_id := 1 }, scale := 1 })

def fixtureCacheAfter1 : GlyphCacheState :=
  { glyph_cache := [(fixtureKey1, fixtureGlyph1)],
    atlas := { side := 64, used := 4, next_sprite := 1, allocs := [{ width := 2, height := 2 }] },
    image_cache := [], next_rc := 1 }

def fixtureCacheAfter2 : GlyphCacheState :=
  { glyph_cache := [(fixtureKey2, fixtureGlyph2), (fixtureKey1, fixtureGlyph1)],
    atlas := { side := 64, used := 8, next_sprite := 2,
               allocs := [{ width := 2, height := 2 }, { width := 2, height := 2 }] },
    image_cache := [], next_rc := 2 }

def fixtureGlyphWSRc : RcCachedGlyph :=
  (0, { has_color := false, x_offset := 0, y_offset := 0, bearing_x := 0, bearing_y := 0,
        texture := none, scale := 1 / 2 })

def fixtureCacheWS1 : GlyphCacheState := { fixtureCache with next_rc := 1 }

def fixtureGlyphBig : RasterizedGlyph :=
  { width := 2, height := 4, bearing_x := 1, bearing_y := 1, has_color := true }

def fixtureCollabBig : FontCollab :=
  { resolve_font := .ok fixtureMetrics, rasterize_glyph := .ok fixtureGlyphBig }

def fixtureGlyphBigRc : RcCachedGlyph :=
  (0, { has_color := true, x_offset := 0, y_offset := 0, bearing_x := 1 / 2, bearing_y := 1 / 2,
        texture := some { sprite_id := 0 }, scale := 1 })

def fixtureCacheBig1 : GlyphCacheState :=
  { glyph_cache := [],
    atlas := { side := 64, used := 2, next_sprite := 1, allocs := [{ width := 1, height := 2 }] },
    image_cache := [], next_rc := 1 }

def fixtureInfoB : GlyphInfo := { font_idx := 0, glyph_pos := 65, x_offset := 5, y_offset := 7 }

def fixtureImage : ImageData := { id := 7, data := [1, 2, 3] }

def fixtureImageCollabFail : ImageCollab := { decoded := .error .decode }

/-! ### Claim theorems -/

/-- C6: an owned `GlyphKey` and a `BorrowedGlyphKey` carrying equal field
values compare equal and hash identically under the projection the glyph map
uses, so a borrowed-key lookup finds exactly what an owned-key lookup finds. -/
theorem borrowed_owned_key_equiv (k : GlyphKey) (b : BorrowedGlyphKey)
    (h1 : k.font_idx = b.font_idx) (h2 : k.glyph_pos = b.glyph_pos)
    (h3 : k.style = b.style) :
    GlyphKeyRef.eqv (.owned k) (.borrowed b) = true ∧
    GlyphKey.hashVal k = BorrowedGlyphKey.hashVal b ∧
    GlyphKeyRef.hashVal (.owned k) = GlyphKeyRef.hashVal (.borrowed b) ∧
    ∀ cache : List (GlyphKey × RcCachedGlyph),
      glyph_lookup cache (.borrowed b) = glyph_lookup cache (.owned k) := by
  obtain ⟨kf, kg, ks⟩ := k
  obtain ⟨bf, bg, bs⟩ := b
  simp only at h1 h2 h3
  subst h1; subst h2; subst h3
  refine ⟨by simp [GlyphKeyRef.eqv, key_owned, key_borrowed, GlyphKey.key,
    BorrowedGlyphKey.key], rfl, rfl, fun cache => rfl⟩

/-- C6 witness: a concrete owned/borrowed pair with equal values. -/
theorem borrowed_owned_key_equiv_witness :
    GlyphKeyRef.eqv (.owned ⟨1, 2, fixtureStyle⟩) (.borrowed ⟨1, 2, fixtureStyle⟩) = true ∧
    GlyphKey.hashVal ⟨1, 2, fixtureStyle⟩ = BorrowedGlyphKey.hashVal ⟨1, 2, fixtureStyle⟩ ∧
    glyph_lookup [] (.borrowed ⟨1, 2, fixtureStyle⟩)
      = glyph_lookup [] (.owned ⟨1, 2, fixtureStyle⟩) :=
  ⟨(borrowed_owned_key_equiv ⟨1, 2, fixtureStyle⟩ ⟨1, 2, fixtureStyle⟩ rfl rfl rfl).1,
   (borrowed_owned_key_equiv ⟨1, 2, fixtureStyle⟩ ⟨1, 2, fixtureStyle⟩ rfl rfl rfl).2.1,
   (borrowed_owned_key_equiv ⟨1, 2, fixtureStyle⟩ ⟨1, 2, fixtureStyle⟩ rfl rfl rfl).2.2.2 []⟩

/-- C2: two `cached_glyph` calls whose shaped-glyph infos agree on
`(font_index, glyph_position)` and whose styles compare equal by value
address the same cache key, whatever their other fields: when the first call
succeeds, the second returns the very same shared instance with the state
untouched (no re-render); two calls whose keys differ only in style produce
and store two distinct entries. -/
theorem cached_glyph_memoization :
    (∀ (c : GlyphCacheState) (info1 info2 : GlyphInfo) (style : TextStyle)
        (collab1 collab2 : FontCollab) (g1 : RcCachedGlyph) (c1 : GlyphCacheState),
      info2.font_idx = info1.font_idx → info2.glyph_pos = info1.glyph_pos →
      cached_glyph c info1 style collab1 = (.ok g1, c1) →
      cached_glyph c1 info2 style collab2 = (.ok g1, c1)) ∧
    (∀ (c : GlyphCacheState) (info1 info2 : GlyphInfo) (style1 style2 : TextStyle)
        (collab1 collab2 : FontCollab) (g1 g2 : RcCachedGlyph) (c1 c2 : GlyphCacheState),
      info2.font_idx = info1.font_idx → info2.glyph_pos = info1.glyph_pos →
      style1 ≠ style2 →
      glyph_lookup c.glyph_cache
        (.borrowed { font_idx := info1.font_idx, glyph_pos := info1.glyph_pos,
                     style := style1 }) = none →
      glyph_lookup c.glyph_cache
        (.borrowed { font_idx := info1.font_idx, glyph_pos := info1.glyph_pos,
                     style := style2 }) = none →
      cached_glyph c info1 style1 collab1 = (.ok g1, c1) →
      cached_glyph c1 info2 style2 collab2 = (.ok g2, c2) →
      g1.1 ≠ g2.1 ∧
      glyph_lookup c2.glyph_cache
        (.borrowed { font_idx := info1.font_idx, glyph_pos := info1.glyph_pos,
                     style := style1 }) = some g1 ∧
      glyph_lookup c2.glyph_cache
        (.borrowed { font_idx := info1.font_idx, glyph_pos := info1.glyph_pos,
                     style := style2 }) = some g2) := by
  constructor
  · intro c info1 info2 style collab1 collab2 g1 c1 hfi hgp h
    simp only [cached_glyph] at h ⊢
    rw [hfi, hgp]
    rcases hl : glyph_lookup c.glyph_cache
        (.borrowed { font_idx := info1.font_idx, glyph_pos := info1.glyph_pos,
                     style := style }) with _ | entry
    · rw [hl] at h
      rcases hload : load_glyph c info1 style collab1 with ⟨res, c'⟩
      rw [hload] at h
      cases res with
      | error e => simp at h
      | ok glyph =>
        simp only [Prod.mk.injEq, Except.ok.injEq] at h
        obtain ⟨hg, hc⟩ := h
        subst hg
        subst hc
        simp [glyph_lookup_cons, to_owned_key, key_borrowed]
    · rw [hl] at h
      simp only [Prod.mk.injEq, Except.ok.injEq] at h
      obtain ⟨hg, hc⟩ := h
      subst hg
      subst hc
      simp [hl]
  · intro c info1 info2 style1 style2 collab1 collab2 g1 g2 c1 c2 hfi hgp hne h01 h02 h1 h2
    simp only [cached_glyph] at h1 h2
    rw [hfi, hgp] at h2
    rw [h01] at h1
    rcases hload1 : load_glyph c info1 style1 collab1 with ⟨res1, c1'⟩
    rw [hload1] at h1
    cases res1 with
    | error e => simp at h1
    | ok glyph1 =>
      simp only [Prod.mk.injEq, Except.ok.injEq] at h1
      obtain ⟨hg1, hc1⟩ := h1
      subst hg1
      obtain ⟨hid1, hnext1, hmap1, -⟩ := load_glyph_ok _ _ _ _ _ _ hload1
      have hkey12 : BorrowedGlyphKey.mk info1.font_idx info1.glyph_pos style1
          ≠ BorrowedGlyphKey.mk info1.font_idx info1.glyph_pos style2 := by
        intro hcon
        exact hne (congrArg BorrowedGlyphKey.style hcon)
      have hl2 : glyph_lookup c1.glyph_cache
          (.borrowed { font_idx := info1.font_idx, glyph_pos := info1.glyph_pos,
                       style := style2 }) = none := by
        subst hc1
        simp only [glyph_lookup_cons, to_owned_key, key_borrowed]
        rw [if_neg hkey12, hmap1, h02]
      rw [hl2] at h2
      rcases hload2 : load_glyph c1 info2 style2 collab2 with ⟨res2, c2'⟩
      rw [hload2] at h2
      cases res2 with
      | error e => simp at h2
      | ok glyph2 =>
        simp only [Prod.mk.injEq, Except.ok.injEq] at h2
        obtain ⟨hg2, hc2⟩ := h2
        subst hg2
        obtain ⟨hid2, hnext2, hmap2, -⟩ := load_glyph_ok _ _ _ _ _ _ hload2
        have hnext_c1 : c1.next_rc = c.next_rc + 1 := by
          subst hc1; exact hnext1
        refine ⟨?_, ?_, ?_⟩
        · rw [hid1, hid2, hnext_c1]
          omega
        · subst hc2
          simp only [glyph_lookup_cons, to_owned_key, key_borrowed]
          rw [if_neg (Ne.symm hkey12), hmap2]
          subst hc1
          simp [glyph_lookup_cons, to_owned_key, key_borrowed]
        · subst hc2
          simp [glyph_lookup_cons, to_owned_key, key_borrowed]

/-- C2 witness: two renders on an empty cache with concrete collaborators;
the repeated lookup uses an info with different offsets but the same
`(font_idx, glyph_pos)` and still hits the first entry. -/
theorem cached_glyph_memoization_witness :
    cached_glyph fixtureCacheAfter1 fixtureInfoB fixtureStyle fixtureCollabSmall
      = (.ok fixtureGlyph1, fixtureCacheAfter1) ∧
    fixtureGlyph1.1 ≠ fixtureGlyph2.1 ∧
    glyph_lookup fixtureCacheAfter2.glyph_cache
      (.borrowed { font_idx := fixtureInfo.font_idx, glyph_pos := fixtureInfo.glyph_pos,
                   style := fixtureStyle }) = some fixtureGlyph1 ∧
    glyph_lookup fixtureCacheAfter2.glyph_cache
      (.borrowed { font_idx := fixtureInfo.font_idx, glyph_pos := fixtureInfo.glyph_pos,
                   style := fixtureStyleBold }) = some fixtureGlyph2 :=
  ⟨cached_glyph_memoization.1 fixtureCache fixtureInfo fixtureInfoB fixtureStyle
      fixtureCollabSmall fixtureCollabSmall fixtureGlyph1 fixtureCacheAfter1 rfl rfl (by
        simp [cached_glyph, load_glyph, glyph_lookup, glyph_scale, glyph_bitmap, scale_by,
          AtlasState.allocate, fixtureCache, fixtureInfo, fixtureStyle, fixtureCollabSmall,
          fixtureMetrics, fixtureGlyphSmall, fixtureGlyph1, fixtureCacheAfter1, fixtureKey1,
          BorrowedGlyphKey.to_owned]),
   cached_glyph_memoization.2 fixtureCache fixtureInfo fixtureInfo fixtureStyle fixtureStyleBold
      fixtureCollabSmall fixtureCollabSmall fixtureGlyph1 fixtureGlyph2 fixtureCacheAfter1
      fixtureCacheAfter2 rfl rfl (by decide) (by decide) (by decide)
      (by
        simp [cached_glyph, load_glyph, glyph_lookup, glyph_scale, glyph_bitmap, scale_by,
          AtlasState.allocate, fixtureCache, fixtureInfo, fixtureStyle, fixtureCollabSmall,
          fixtureMetrics, fixtureGlyphSmall, fixtureGlyph1, fixtureCacheAfter1, fixtureKey1,
          BorrowedGlyphKey.to_owned])
      (by
        simp [cached_glyph, load_glyph, glyph_lookup, glyph_scale, glyph_bitmap, scale_by,
          AtlasState.allocate, fixtureCacheAfter1, fixtureInfo, fixtureStyle, fixtureStyleBold,
          fixtureCollabSmall, fixtureMetrics, fixtureGlyphSmall, fixtureGlyph1, fixtureGlyph2,
          fixtureCacheAfter2, fixtureKey1, fixtureKey2, BorrowedGlyphKey.to_owned,
          GlyphKeyRef.eqv, key_owned, key_borrowed, GlyphKey.key, List.find?])⟩

/-- C3: a whitespace glyph (zero rasterized width or height) produces a
`CachedGlyph` with `texture = none`, zero bearing, offsets multiplied by the
computed scale, and no atlas allocation; a glyph with nonzero width and height
is allocated into the atlas and stored with `texture` present, so
`texture = none` holds exactly for whitespace glyphs. -/
theorem load_glyph_whitespace (c : GlyphCacheState) (info : GlyphInfo) (style : TextStyle)
    (collab : FontCollab) (metrics : FontMetrics) (glyph : RasterizedGlyph)
    (g : RcCachedGlyph) (c' : GlyphCacheState)
    (hf : collab.resolve_font = .ok metrics)
    (hr : collab.rasterize_glyph = .ok glyph)
    (hok : load_glyph c info style collab = (.ok g, c')) :
    (g.2.texture = none ↔ (glyph.width = 0 ∨ glyph.height = 0)) ∧
    ((glyph.width = 0 ∨ glyph.height = 0) →
      g.2.bearing_x = 0 ∧ g.2.bearing_y = 0 ∧
      g.2.x_offset = info.x_offset * glyph_scale metrics glyph ∧
      g.2.y_offset = info.y_offset * glyph_scale metrics glyph ∧
      c'.atlas = c.atlas) ∧
    (¬(glyph.width = 0 ∨ glyph.height = 0) →
      c'.atlas.allocs = c.atlas.allocs ++ [glyph_bitmap metrics glyph]) := by
  rcases load_glyph_cases c info style collab metrics glyph g c' hf hr hok with
    ⟨hws, hg, hc⟩ | ⟨hws, htex, -, -, -, -, -, hallocs, -⟩
  · subst hg
    subst hc
    exact ⟨by simp [hws], fun _ => ⟨rfl, rfl, rfl, rfl, rfl⟩, fun hn => absurd hws hn⟩
  · refine ⟨?_, fun hw => absurd hw hws, fun _ => hallocs⟩
    rw [htex]
    simp [hws]

/-- C3 witness: the whitespace branch at a concrete zero-width glyph. -/
theorem load_glyph_whitespace_witness :
    fixtureGlyphWSRc.2.bearing_x = 0 ∧ fixtureGlyphWSRc.2.bearing_y = 0 ∧
    fixtureGlyphWSRc.2.x_offset
      = fixtureInfo.x_offset * glyph_scale fixtureMetrics fixtureGlyphWS ∧
    fixtureGlyphWSRc.2.y_offset
      = fixtureInfo.y_offset * glyph_scale fixtureMetrics fixtureGlyphWS ∧
    fixtureCacheWS1.atlas = fixtureCache.atlas :=
  (load_glyph_whitespace fixtureCache fixtureInfo fixtureStyle fixtureCollabWS fixtureMetrics
    fixtureGlyphWS fixtureGlyphWSRc fixtureCacheWS1 rfl rfl
    (by norm_num [load_glyph, glyph_scale, fixtureCache, fixtureInfo, fixtureStyle,
      fixtureCollabWS, fixtureMetrics, fixtureGlyphWS, fixtureGlyphWSRc,
      fixtureCacheWS1])).2.1 (Or.inl rfl)

/-- C4 counterexample: a glyph whose rasterized height 4 exceeds 1.5 × the
cell height 2 but whose width is 0 takes the whitespace branch, so the stored
`CachedGlyph` keeps `scale = 1/2` (not `1.0`) and nothing is resampled or
allocated — the claim's first half is false for such a glyph. -/
theorem load_glyph_oversize_whitespace_cex :
    (fixtureGlyphWS.height : ℚ) > fixtureMetrics.cell_height * (3 / 2) ∧
    load_glyph fixtureCache fixtureInfo fixtureStyle fixtureCollabWS
      = (.ok (0, { has_color := false, x_offset := 0, y_offset := 0, bearing_x := 0,
                   bearing_y := 0, texture := none, scale := 1 / 2 }),
         { fixtureCache with next_rc := 1 }) ∧
    ((1 : ℚ) / 2) ≠ 1 ∧
    (load_glyph fixtureCache fixtureInfo fixtureStyle fixtureCollabWS).2.atlas.allocs
      = fixtureCache.atlas.allocs := by
  norm_num [load_glyph, glyph_scale, fixtureCache, fixtureInfo, fixtureStyle,
    fixtureCollabWS, fixtureMetrics, fixtureGlyphWS]

/-- C4 (amended): for every non-whitespace glyph (nonzero width and height),
if the rasterized height exceeds 1.5 × cell height then
`scale = cell_height / height`, the bitmap handed to the atlas is the raw
bitmap resampled by that scale, and the stored record has `scale = 1`;
otherwise the bitmap is stored unscaled, again with stored `scale = 1`. -/
theorem load_glyph_oversize_scaling (c : GlyphCacheState) (info : GlyphInfo)
    (style : TextStyle) (collab : FontCollab) (metrics : FontMetrics)
    (glyph : RasterizedGlyph) (g : RcCachedGlyph) (c' : GlyphCacheState)
    (hf : collab.resolve_font = .ok metrics)
    (hr : collab.rasterize_glyph = .ok glyph)
    (hok : load_glyph c info style collab = (.ok g, c'))
    (hwh : ¬(glyph.width = 0 ∨ glyph.height = 0)) :
    ((glyph.height : ℚ) > metrics.cell_height * (3 / 2) →
      glyph_scale metrics glyph = metrics.cell_height / (glyph.height : ℚ) ∧
      glyph_bitmap metrics glyph
        = scale_by { width := glyph.width, height := glyph.height }
            (glyph_scale metrics glyph) ∧
      c'.atlas.allocs = c.atlas.allocs ++ [glyph_bitmap metrics glyph] ∧
      g.2.scale = 1) ∧
    (¬((glyph.height : ℚ) > metrics.cell_height * (3 / 2)) →
      glyph_bitmap metrics glyph = { width := glyph.width, height := glyph.height } ∧
      c'.atlas.allocs = c.atlas.allocs ++ [glyph_bitmap metrics glyph] ∧
      g.2.scale = 1) := by
  rcases load_glyph_cases c info style collab metrics glyph g c' hf hr hok with
    ⟨hws, -, -⟩ | ⟨-, -, hscale1, -, -, -, -, hallocs, -⟩
  · exact absurd hws hwh
  · constructor
    · intro hbig
      refine ⟨by rw [glyph_scale, if_pos hbig], ?_, hallocs, hscale1⟩
      by_cases hsc : glyph_scale metrics glyph ≠ 1
      · rw [glyph_bitmap, if_pos hsc]
      · rw [glyph_bitmap, if_neg hsc, not_not.mp hsc]
        simp [scale_by]
    · intro hsmall
      have h1 : glyph_scale metrics glyph = 1 := by rw [glyph_scale, if_neg hsmall]
      refine ⟨?_, hallocs, hscale1⟩
      rw [glyph_bitmap, h1]
      simp [scale_by]

/-- C4 witness: a concrete 2×4 glyph against cell height 2 is resampled to
1×2 and stored with scale 1. -/
theorem load_glyph_oversize_scaling_witness :
    glyph_scale fixtureMetrics fixtureGlyphBig
      = fixtureMetrics.cell_height / (fixtureGlyphBig.height : ℚ) ∧
    glyph_bitmap fixtureMetrics fixtureGlyphBig
      = scale_by { width := fixtureGlyphBig.width, height := fixtureGlyphBig.height }
          (glyph_scale fixtureMetrics fixtureGlyphBig) ∧
    fixtureCacheBig1.atlas.allocs
      = fixtureCache.atlas.allocs ++ [glyph_bitmap fixtureMetrics fixtureGlyphBig] ∧
    fixtureGlyphBigRc.2.scale = 1 :=
  (load_glyph_oversize_scaling fixtureCache fixtureInfo fixtureStyle fixtureCollabBig
    fixtureMetrics fixtureGlyphBig fixtureGlyphBigRc fixtureCacheBig1 rfl rfl
    (by norm_num [load_glyph, glyph_scale, glyph_bitmap, scale_by, AtlasState.allocate,
      fixtureCache, fixtureInfo, fixtureStyle, fixtureCollabBig, fixtureMetrics,
      fixtureGlyphBig, fixtureGlyphBigRc, fixtureCacheBig1, Int.toNat])
    (by norm_num [fixtureGlyphBig])).1
    (by norm_num [fixtureMetrics, fixtureGlyphBig])

/-- C8: a failing `cached_glyph` or `cached_image` call leaves the glyph
cache state (glyph map, image cache, atlas, counters) exactly as it was, so a
later call with the same key retries the full render/decode path. -/
theorem cache_unchanged_on_failure :
    (∀ (c : GlyphCacheState) (info : GlyphInfo) (style : TextStyle) (collab : FontCollab)
        (e : GlyphCacheError) (c' : GlyphCacheState),
      cached_glyph c info style collab = (.error e, c') → c' = c) ∧
    (∀ (c : GlyphCacheState) (img : ImageData) (collab : ImageCollab)
        (e : GlyphCacheError) (c' : GlyphCacheState),
      cached_image c img collab = (.error e, c') → c' = c) := by
  constructor
  · intro c info style collab e c' h
    simp only [cached_glyph] at h
    rcases hl : glyph_lookup c.glyph_cache
        (.borrowed { font_idx := info.font_idx, glyph_pos := info.glyph_pos,
                     style := style }) with _ | entry
    · rw [hl] at h
      rcases hload : load_glyph c info style collab with ⟨res, c''⟩
      rw [hload] at h
      cases res with
      | error e2 =>
        simp only [Prod.mk.injEq, Except.error.injEq] at h
        obtain ⟨-, hc⟩ := h
        subst hc
        exact load_glyph_error _ _ _ _ _ _ hload
      | ok glyph => simp at h
    · rw [hl] at h
      simp at h
  · intro c img collab e c' h
    simp only [cached_image] at h
    split at h
    · simp at h
    · split at h
      · simp only [Prod.mk.injEq, Except.error.injEq] at h
        exact h.2.symm
      · split at h
        · simp only [Prod.mk.injEq, Except.error.injEq] at h
          exact h.2.symm
        · simp at h

/-- C8 witness: a rasterization failure and a decode failure on a concrete
cache leave the state untouched. -/
theorem cache_unchanged_on_failure_witness :
    (cached_glyph fixtureCache fixtureInfo fixtureStyle fixtureCollabFail).2 = fixtureCache ∧
    (cached_image fixtureCache fixtureImage fixtureImageCollabFail).2 = fixtureCache :=
  ⟨cache_unchanged_on_failure.1 fixtureCache fixtureInfo fixtureStyle fixtureCollabFail
      .rasterization (cached_glyph fixtureCache fixtureInfo fixtureStyle fixtureCollabFail).2
      (by decide),
   cache_unchanged_on_failure.2 fixtureCache fixtureImage fixtureImageCollabFail
      .decode (cached_image fixtureCache fixtureImage fixtureImageCollabFail).2
      (by decide)⟩

/-! ### Window fixtures -/

def fixtureTerminal : Terminal := { title := "bash", rows := 5, cols := 10, dirty := [] }

def fixturePty : Pty := { rows := 5, cols := 10, width := 100, height := 100, resize_ok := true }

def fixtureTab (i : Nat) (ex : Bool) : Tab :=
  { tab_id := i, terminal := fixtureTerminal, process := { exited := ex }, pty := fixturePty }

def fixtureWin3 : WindowState :=
  { tabs := { items := [fixtureTab 0 false, fixtureTab 1 false, fixtureTab 2 false], active := 0 },
    width := 100, height := 100, cell_width := 1, cell_height := 1,
    atlas := { size := 256, gen := 0 }, window_title := "", deregistered := [] }

def fixtureWin0 : WindowState := { fixtureWin3 with tabs := { items := [], active := 0 } }

def fixtureWin1 : WindowState :=
  { fixtureWin3 with tabs := { items := [fixtureTab 0 false], active := 0 } }

def fixtureWinExit : WindowState :=
  { fixtureWin3 with tabs := { items := [fixtureTab 0 true, fixtureTab 1 false], active := 0 } }

/-! ### Window controller lemmas and claims -/

theorem update_title_tabs (s : WindowState) : (update_title s).tabs = s.tabs := by
  unfold update_title
  by_cases h0 : s.tabs.len = 0
  · simp [h0]
  · rcases hact : s.tabs.get_active with _ | tab
    · simp [h0, hact]
    · by_cases h1 : s.tabs.len = 1 <;> simp [h0, h1, hact]

/-- C10: `activate_tab_relative` with zero tabs reaches the source's
modulus-by-zero (modelled as `none`); with at least one tab the computed
index is strictly below the length, so the wrapped call to `activate_tab`
never takes its out-of-range no-op branch and the active index really is
updated to the computed index. -/
theorem activate_tab_relative_totality (s : WindowState) (delta : Int) :
    (s.tabs.len = 0 → activate_tab_relative s delta = none) ∧
    (0 < s.tabs.len →
      relative_tab_index s.tabs.len s.tabs.get_active_idx delta < s.tabs.len ∧
      activate_tab_relative s delta
        = some (activate_tab s (relative_tab_index s.tabs.len s.tabs.get_active_idx delta)) ∧
      (activate_tab s (relative_tab_index s.tabs.len s.tabs.get_active_idx delta)).tabs.active
        = relative_tab_index s.tabs.len s.tabs.get_active_idx delta) := by
  constructor
  · intro h0
    unfold activate_tab_relative
    rw [if_pos h0]
  · intro hn
    have hlt : relative_tab_index s.tabs.len s.tabs.get_active_idx delta < s.tabs.len := by
      unfold relative_tab_index
      exact Nat.mod_lt _ hn
    refine ⟨hlt, ?_, ?_⟩
    · unfold activate_tab_relative
      rw [if_neg (by omega)]
    · unfold activate_tab
      rw [if_pos hlt, update_title_tabs]
      rfl

/-- C10 witness: zero tabs hit the error branch; with 3 tabs the computed
index is in range. -/
theorem activate_tab_relative_totality_witness :
    activate_tab_relative fixtureWin0 5 = none ∧
    relative_tab_index fixtureWin3.tabs.len fixtureWin3.tabs.get_active_idx 4
      < fixtureWin3.tabs.len :=
  ⟨(activate_tab_relative_totality fixtureWin0 5).1 (by decide),
   ((activate_tab_relative_totality fixtureWin3 4).2 (by decide)).1⟩

theorem get?_set_self {α : Type} (l : List α) (n : Nat) (a b : α)
    (h : l.get? n = some a) : (l.set n b).get? n = some b := by
  induction l generalizing n with
  | nil => simp at h
  | cons x xs ih =>
    cases n with
    | zero => rfl
    | succ m =>
      simp only [List.get?] at h
      simp only [List.set, List.get?]
      exact ih m h

/-- C1: on an `AtlasOutOfSpace{size}` render failure, `paint` rebuilds the
atlas at the requested size (bumping its generation), marks every line of the
active tab's terminal dirty and retries itself on the rebuilt state; a retry
that then succeeds returns success; any render failure that is not
`AtlasOutOfSpace` is returned unchanged with the whole state — the atlas in
particular — untouched. -/
theorem paint_atlas_recovery (s : WindowState) (tab : Tab) (size : Nat)
    (rest : List RenderResult) (h : s.tabs.get_active = some tab) :
    paint s (.error (.outOfTextureSpace size) :: rest)
      = paint ((recreate_texture_atlas s size).modify_active_terminal
          Terminal.make_all_lines_dirty) rest ∧
    ((recreate_texture_atlas s size).modify_active_terminal
        Terminal.make_all_lines_dirty).atlas = { size := size, gen := s.atlas.gen + 1 } ∧
    ((recreate_texture_atlas s size).modify_active_terminal
        Terminal.make_all_lines_dirty).tabs.get_active
      = some { tab with terminal := tab.terminal.make_all_lines_dirty } ∧
    (∀ i, i < tab.terminal.rows → i ∈ (tab.terminal.make_all_lines_dirty).dirty) ∧
    paint s [.error (.outOfTextureSpace size), .ok ()]
      = some (.ok (), (recreate_texture_atlas s size).modify_active_terminal
          Terminal.make_all_lines_dirty) ∧
    (∀ (code : Nat) (rest2 : List RenderResult),
      paint s (.error (.other code) :: rest2) = some (.error (.other code), s)) := by
  have hact : (recreate_texture_atlas s size).tabs.get_active = some tab := h
  have hstep : ∀ rest2 : List RenderResult,
      paint s (.error (.outOfTextureSpace size) :: rest2)
        = paint ((recreate_texture_atlas s size).modify_active_terminal
            Terminal.make_all_lines_dirty) rest2 := by
    intro rest2
    rw [paint, hact]
  refine ⟨hstep rest, ?_, ?_, ?_, ?_, ?_⟩
  · simp only [WindowState.modify_active_terminal, hact]
    rfl
  · simp only [WindowState.modify_active_terminal, hact]
    unfold Tabs.get_active at h ⊢
    exact get?_set_self _ _ _ _ h
  · intro i hi
    simp [Terminal.make_all_lines_dirty, List.mem_range, hi]
  · rw [hstep [.ok ()]]
    rw [paint]
  · intro code rest2
    rw [paint]

/-- C1 witness: one tab, out-of-space at 512 followed by a successful
render; and a non-overflow error returned unchanged. -/
theorem paint_atlas_recovery_witness :
    ((recreate_texture_atlas fixtureWin1 512).modify_active_terminal
        Terminal.make_all_lines_dirty).atlas
      = { size := 512, gen := fixtureWin1.atlas.gen + 1 } ∧
    paint fixtureWin1 [.error (.outOfTextureSpace 512), .ok ()]
      = some (.ok (), (recreate_texture_atlas fixtureWin1 512).modify_active_terminal
          Terminal.make_all_lines_dirty) ∧
    paint fixtureWin1 [.error (.other 3)] = some (.error (.other 3), fixtureWin1) :=
  ⟨(paint_atlas_recovery fixtureWin1 (fixtureTab 0 false) 512 [] rfl).2.1,
   (paint_atlas_recovery fixtureWin1 (fixtureTab 0 false) 512 [] rfl).2.2.2.2.1,
   (paint_atlas_recovery fixtureWin1 (fixtureTab 0 false) 512 [] rfl).2.2.2.2.2 3 []⟩

theorem resize_tabs_all_ok (rows cols width height : Nat) (l : List Tab)
    (h : ∀ t ∈ l, t.pty.resize_ok = true) :
    resize_tabs rows cols width height l
      = (l.map (fun t =>
          { t with
            pty := { t.pty with rows := rows, cols := cols, width := width, height := height }
            terminal := t.terminal.resize rows cols }), true) := by
  induction l with
  | nil => rfl
  | cons t ts ih =>
    have hok := h t (List.mem_cons_self t ts)
    simp only [resize_tabs, Pty.resize, hok, if_true, List.map_cons]
    rw [ih (fun t2 ht2 => h t2 (List.mem_cons_of_mem t ht2))]

/-- C7 counterexample: with cell height 1 the quotient (65535+1)/1 = 65536
wraps to 0 in the source's `as u16` cast, so the resized terminal receives 0
rows, not the claimed (h+1)/cell_height = 65536. -/
theorem resize_surfaces_u16_wrap_cex :
    (resize_surfaces fixtureWin1 100 65535).2.tabs.items.map (fun t => t.terminal.rows)
      = [0] ∧
    (65535 + 1) / fixtureWin1.cell_height = 65536 ∧
    (0 : Nat) ≠ 65536 := by
  refine ⟨by decide, by decide, by decide⟩

/-- C7 (amended): `resize_surfaces` with the current dimensions mutates no tab
and reports that no resize occurred; with different dimensions (and ptys that
accept the resize) it reports a resize and every tab's pty and terminal
receive the same counts, rows = ((h+1)/cell_height) mod 2^16 and
cols = ((w+1)/cell_width) mod 2^16 — the quotients truncated by the source's
`as u16` casts. -/
theorem resize_surfaces_spec (s : WindowState) (width height : Nat) :
    (width = s.width → height = s.height → resize_surfaces s width height = (.ok false, s)) ∧
    ((width ≠ s.width ∨ height ≠ s.height) →
      (∀ t ∈ s.tabs.items, t.pty.resize_ok = true) →
      (resize_surfaces s width height).1 = .ok true ∧
      ∀ t ∈ (resize_surfaces s width height).2.tabs.items,
        t.terminal.rows = ((height + 1) / s.cell_height) % 2 ^ 16 ∧
        t.terminal.cols = ((width + 1) / s.cell_width) % 2 ^ 16 ∧
        t.pty.rows = ((height + 1) / s.cell_height) % 2 ^ 16 ∧
        t.pty.cols = ((width + 1) / s.cell_width) % 2 ^ 16 ∧
        t.pty.width = width ∧ t.pty.height = height) := by
  constructor
  · intro hw hh
    subst hw
    subst hh
    simp [resize_surfaces]
  · intro hne hok
    have hcond : width ≠ s.width ∨ height ≠ s.height := hne
    simp only [resize_surfaces, if_pos hcond]
    rw [resize_tabs_all_ok _ _ _ _ _ hok]
    refine ⟨rfl, ?_⟩
    intro t ht
    simp only [List.mem_map] at ht
    obtain ⟨t0, -, hmap⟩ := ht
    subst hmap
    exact ⟨rfl, rfl, rfl, rfl, rfl, rfl⟩

/-- C7 witness: resizing to the current 100×100 reports no resize and leaves
the state alone; resizing to 200×150 (cells 1×1) reports a resize and the tab
receives 151 rows and 201 columns. -/
theorem resize_surfaces_spec_witness :
    resize_surfaces fixtureWin1 fixtureWin1.width fixtureWin1.height
      = (.ok false, fixtureWin1) ∧
    (resize_surfaces fixtureWin1 200 150).1 = .ok true ∧
    (resize_surfaces fixtureWin1 200 150).2.tabs.items.map
        (fun t => (t.terminal.rows, t.terminal.cols, t.pty.rows, t.pty.cols))
      = [(151, 201, 151, 201)] :=
  ⟨(resize_surfaces_spec fixtureWin1 fixtureWin1.width fixtureWin1.height).1 rfl rfl,
   ((resize_surfaces_spec fixtureWin1 200 150).2 (by decide) (by decide)).1,
   by decide⟩

/-- Projection of a tab to the data `test_for_child_exit` decides on: its
stable id and whether its process has exited. -/
def tabKey (t : Tab) : Nat × Bool := (t.tab_id, t.process.exited)

theorem map_set_same {α β : Type} (f : α → β) (l : List α) (n : Nat) (a b : α)
    (h : l.get? n = some a) (hf : f b = f a) : (l.set n b).map f = l.map f := by
  induction l generalizing n with
  | nil => simp at h
  | cons x xs ih =>
    cases n with
    | zero =>
      simp only [List.get?] at h
      obtain rfl : x = a := by injection h
      simp [List.set, hf]
    | succ m =>
      simp only [List.get?] at h
      simp only [List.set, List.map_cons]
      rw [ih m h]

theorem map_filter_comm {α β : Type} (f : α → β) (q : β → Bool) (l : List α) :
    (l.filter (fun a => q (f a))).map f = (l.map f).filter q := by
  induction l with
  | nil => rfl
  | cons x xs ih =>
    by_cases hx : q (f x) = true
    · simp [List.filter_cons, hx, ih]
    · simp only [List.filter_cons, List.map_cons]
      rw [if_neg hx, if_neg hx, ih]

theorem isEmpty_map {α β : Type} (f : α → β) (l : List α) :
    (l.map f).isEmpty = l.isEmpty := by
  cases l <;> rfl

theorem modify_active_terminal_tabKey (s : WindowState) (f : Terminal → Terminal) :
    (s.modify_active_terminal f).tabs.items.map tabKey = s.tabs.items.map tabKey := by
  unfold WindowState.modify_active_terminal
  cases hact : s.tabs.get_active with
  | none => rfl
  | some tab =>
    unfold Tabs.get_active at hact
    exact map_set_same tabKey _ _ _ _ hact rfl

/-- `tab_did_terminate` removes exactly the tab with the given id, as seen
through the id/exited projection (the remaining tabs may get their terminals
dirtied and the title refreshed, neither of which moves the projection). -/
theorem tab_did_terminate_tabKey (s : WindowState) (tab_id : Nat) :
    (tab_did_terminate s tab_id).tabs.items.map tabKey
      = (s.tabs.items.filter (fun t => t.tab_id ≠ tab_id)).map tabKey := by
  cases hact : ({ s with tabs := s.tabs.remove_by_id tab_id } : WindowState).tabs.get_active with
  | none =>
    simp only [tab_did_terminate, hact]
    rfl
  | some tab =>
    simp only [tab_did_terminate, hact]
    rw [update_title_tabs, modify_active_terminal_tabKey]
    rfl

/-- Folding `tab_did_terminate` over a list of ids removes exactly the tabs
whose id is in the list, seen through the id/exited projection. -/
theorem fold_terminate_tabKey (ids : List Nat) (s : WindowState) :
    (ids.foldl tab_did_terminate s).tabs.items.map tabKey
      = (s.tabs.items.map tabKey).filter (fun p => decide (p.1 ∉ ids)) := by
  induction ids generalizing s with
  | nil => simp
  | cons x xs ih =>
    rw [List.foldl_cons, ih, tab_did_terminate_tabKey]
    have hmf := map_filter_comm tabKey (fun p => decide (p.1 ≠ x)) s.tabs.items
    simp only [tabKey] at hmf ⊢
    rw [show (fun t => decide (t.tab_id ≠ x)) = (fun t : Tab => decide ((t.tab_id, t.process.exited).1 ≠ x))
      from rfl, hmf, List.filter_filter]
    apply List.filter_congr
    intro p _
    simp [List.mem_cons, not_or, Bool.and_comm]

theorem dead_tabs_eq (l : List Tab) :
    (l.filterMap (fun t =>
        match t.process.try_wait with
        | none => none
        | some _ => some t.tab_id))
      = (l.filter (fun t => t.process.exited)).map Tab.tab_id := by
  induction l with
  | nil => rfl
  | cons t ts ih =>
    simp only [List.filterMap_cons, List.filter_cons, ChildProcess.try_wait] at ih ⊢
    by_cases hx : t.process.exited = true
    · simp [hx, ih]
    · simp [hx, ih]

/-- C9: `test_for_child_exit` removes, via `tab_did_terminate`, exactly the
tabs whose process polls as exited (seen through the id/exited projection,
assuming the stable ids are distinct), and returns true exactly when the tab
collection is empty after those removals. -/
theorem test_for_child_exit_spec (s : WindowState)
    (hnodup : (s.tabs.items.map Tab.tab_id).Nodup) :
    (test_for_child_exit s).2.tabs.items.map tabKey
      = (s.tabs.items.filter (fun t => !t.process.exited)).map tabKey ∧
    (test_for_child_exit s).1
      = (s.tabs.items.filter (fun t => !t.process.exited)).isEmpty := by
  have hmain : (test_for_child_exit s).2.tabs.items.map tabKey
      = (s.tabs.items.filter (fun t => !t.process.exited)).map tabKey := by
    unfold test_for_child_exit
    rw [dead_tabs_eq, fold_terminate_tabKey]
    have hmf := map_filter_comm tabKey (fun p => !p.2) s.tabs.items
    simp only [tabKey] at hmf
    rw [show (fun t : Tab => !t.process.exited)
        = (fun t : Tab => !(t.tab_id, t.process.exited).2) from rfl, hmf]
    apply List.filter_congr
    intro p hp
    simp only [List.mem_map] at hp
    obtain ⟨t, htmem, rfl⟩ := hp
    have hiff : t.tab_id ∈ (s.tabs.items.filter (fun t => t.process.exited)).map Tab.tab_id
        ↔ t.process.exited = true := by
      constructor
      · intro hmem
        simp only [List.mem_map, List.mem_filter] at hmem
        obtain ⟨t2, ⟨ht2mem, ht2ex⟩, hid⟩ := hmem
        have : t2 = t := List.inj_on_of_nodup_map hnodup ht2mem htmem hid
        rw [← this]
        exact ht2ex
      · intro hex
        exact List.mem_map.mpr ⟨t, List.mem_filter.mpr ⟨htmem, hex⟩, rfl⟩
    simp only [tabKey]
    by_cases hex : t.process.exited = true
    · have hm := hiff.mpr hex
      simp [hm, hex]
    · simp only [Bool.not_eq_true] at hex
      have hm : t.tab_id ∉ (s.tabs.items.filter (fun t => t.process.exited)).map Tab.tab_id := by
        intro hmem
        have hcon := hiff.mp hmem
        rw [hex] at hcon
        exact Bool.false_ne_true hcon
      simp [hm, hex]
  refine ⟨hmain, ?_⟩
  have h1 : (test_for_child_exit s).1 = (test_for_child_exit s).2.tabs.items.isEmpty := rfl
  rw [h1, ← isEmpty_map tabKey, hmain, isEmpty_map]

/-- C9 witness: two tabs with distinct ids, the first exited: the projection
after the call equals the filter of still-running tabs, and the return value
reflects that the collection is non-empty. -/
theorem test_for_child_exit_spec_witness :
    (test_for_child_exit fixtureWinExit).2.tabs.items.map tabKey
      = (fixtureWinExit.tabs.items.filter (fun t => !t.process.exited)).map tabKey ∧
    (test_for_child_exit fixtureWinExit).1
      = (fixtureWinExit.tabs.items.filter (fun t => !t.process.exited)).isEmpty :=
  test_for_child_exit_spec fixtureWinExit (by decide)

end Wezterm
